import Mathlib

/-!
Shallow embedding of the cross-advertising Discord bot
(src/HentaiDiscord.py) and verification of the frozen claims.

Modelling conventions:
  * Mongo documents become Lean structures; optional fields become Option.
  * Timestamps are Int seconds (datetime.utcnow().timestamp()).
  * The Mongo collections become lists inside a DB structure; a Bool
    `avail` models whether safe_connect_mongo returned a handle.
  * External effects (Discord fetch/send, random.choice) become oracle
    function parameters; a delivery oracle reports whether a send would
    succeed, raise, or be silently skipped.
  * Replies to the user are abstracted to tags carrying the data the
    claims mention (embed texts are out of scope).
-/

namespace HentaiBot

/-- Guild document of the servers collection (fields used by the bot). -/
structure ServerDoc where
  guildId : String
  crossAdEnabled : Option Bool
  crossAdChannelId : Option String
  domainPreference : Option String
  deriving DecidableEq

/-- Bump log document of the bot_bumps collection. -/
structure BumpDoc where
  guildId : String
  bumpedAt : Int
  userId : String
  deriving DecidableEq

/-- Reminder document (bump_reminders and bot_bump_reminders collections).
The field rid stands for the Mongo object id used by delete_one. -/
structure ReminderDoc where
  rid : Nat
  userId : String
  guildId : String
  remindAt : Int
  enabled : Bool
  createdAt : Int
  deriving DecidableEq

/-- User settings document of the user_settings collection. -/
structure UserSetting where
  userId : String
  botRemindersEnabled : Option Bool
  deriving DecidableEq

/-- The document store: one list per collection, plus a counter supplying
fresh object ids for inserted reminder documents. -/
structure DB where
  servers : List ServerDoc
  bot_bumps : List BumpDoc
  bump_reminders : List ReminderDoc
  bot_bump_reminders : List ReminderDoc
  user_settings : List UserSetting
  nextId : Nat
  deriving DecidableEq

/-- Mongo filter crossAdEnabled: True, crossAdChannelId: exists, used by
the cross-ad loop, the reminder loop and the bump command. -/
def optedIn (s : ServerDoc) : Bool :=
  s.crossAdEnabled == some true && s.crossAdChannelId.isSome

/-- find_one on the servers collection with filter guildId. -/
def findServer (db : DB) (g : String) : Option ServerDoc :=
  db.servers.find? (fun s => s.guildId == g)

/-- Query for the servers other than g that are opted in
(guildId ne g, crossAdEnabled True, crossAdChannelId exists). -/
def otherServers (db : DB) (g : String) : List ServerDoc :=
  db.servers.filter (fun s => s.guildId != g && optedIn s)

/-- Timestamp of the most recent bump record of a guild: the bumpedAt of
find_one with sort bumpedAt descending (only bumpedAt is read). -/
def lastBumpAt (db : DB) (g : String) : Option Int :=
  (db.bot_bumps.filter (fun b => b.guildId == g)).foldl
    (fun acc b =>
      match acc with
      | none => some b.bumpedAt
      | some t => some (max t b.bumpedAt)) none

/-! Domain configuration (lines 23 to 26 of the source). -/

/-- The DOMAINS dict, in insertion order. -/
def DOMAINS : List (String × String) :=
  [("hentai", "hentaidiscord.com"), ("anime", "animediscord.com")]

/-- DOMAINS.get on a key. -/
def domainsGet (k : String) : Option String :=
  (DOMAINS.find? (fun p => p.1 == k)).map (fun p => p.2)

/-- list of DOMAINS.values() in order. -/
def domainsValues : List String := DOMAINS.map (fun p => p.2)

/-- Environment configuration read by get_domain_for_guild. The mapping is
the parsed GUILD_DOMAIN_MAPPING JSON object; none covers an unset variable
and a parse failure alike (both skip step 3). -/
structure BotConfig where
  preferredDomain : Option String
  guildDomainMapping : Option (List (String × String))
  loadBalanceDomains : Bool
  deriving DecidableEq

/-- Lookup in the parsed guild to domain mapping. -/
def mapLookup (m : List (String × String)) (k : String) : Option String :=
  (m.find? (fun p => p.1 == k)).map (fun p => p.2)

/-- Step 1 of get_domain_for_guild: the database guild-specific
domainPreference, when the guild id is truthy, the store is reachable, the
document exists and the preference is a truthy DOMAINS key. -/
def dbPreferenceDomain (avail : Bool) (db : DB) (guildId : String) : Option String :=
  if guildId.isEmpty then none
  else if !avail then none
  else
    match findServer db guildId with
    | none => none
    | some s =>
      match s.domainPreference with
      | none => none
      | some p => if p.isEmpty then none else domainsGet p

/-- Step 2: the PREFERRED_DOMAIN environment override, lowercased and
looked up in DOMAINS. -/
def envPreferredDomain (cfg : BotConfig) : Option String :=
  match cfg.preferredDomain with
  | none => none
  | some p => if p.isEmpty then none else domainsGet p.toLower

/-- Step 3: the GUILD_DOMAIN_MAPPING entry for the guild, lowercased and
looked up in DOMAINS. -/
def envGuildMappingDomain (cfg : BotConfig) (guildId : String) : Option String :=
  if guildId.isEmpty then none
  else
    match cfg.guildDomainMapping with
    | none => none
    | some m =>
      match mapLookup m guildId with
      | none => none
      | some v => domainsGet v.toLower

/-- Hash used for load balancing: sum of the character codes of the guild
id modulo the number of domains. -/
def guildHash (guildId : String) : Nat :=
  (guildId.toList.map Char.toNat).sum % DOMAINS.length

/-- Step 4: when LOAD_BALANCE_DOMAINS is the string true and the guild id
is truthy, index DOMAINS.values() by the hash. -/
def loadBalanceDomain (cfg : BotConfig) (guildId : String) : Option String :=
  if guildId.isEmpty then none
  else if cfg.loadBalanceDomains then some (domainsValues.getD (guildHash guildId) "")
  else none

/-- Step 5: the fixed fallback DOMAINS of the key hentai. -/
def defaultDomain : String := "hentaidiscord.com"

/-- Body of get_domain_for_guild after a cache miss (lines 144 to 214):
each numbered step returns as soon as it produces a domain. -/
def resolve_domain (cfg : BotConfig) (avail : Bool) (db : DB) (guildId : String) : String :=
  match dbPreferenceDomain avail db guildId with
  | some d => d
  | none =>
    match envPreferredDomain cfg with
    | some d => d
    | none =>
      match envGuildMappingDomain cfg guildId with
      | some d => d
      | none =>
        match loadBalanceDomain cfg guildId with
        | some d => d
        | none => defaultDomain

/-- First defined value of an ordered rule list. -/
def firstSome : List (Option String) → Option String
  | [] => none
  | o :: rest =>
    match o with
    | some d => some d
    | none => firstSome rest

/-- Spec reading of the domain resolver (section 4.1): an ordered list of
rules evaluated in sequence, the first rule yielding a valid non-empty
domain wins, with the fixed default last. -/
def resolve_domain_rules_spec (cfg : BotConfig) (avail : Bool) (db : DB) (guildId : String) : String :=
  (firstSome
    [dbPreferenceDomain avail db guildId,
     envPreferredDomain cfg,
     envGuildMappingDomain cfg guildId,
     loadBalanceDomain cfg guildId]).getD defaultDomain

/-! Server data cache (get_server_data_cached, invalidate_server_cache). -/

/-- One entry of the in-memory server cache: the find_one result (which
may be None) together with the time it was stored. -/
structure CacheEntry where
  data : Option ServerDoc
  timestamp : Int
  deriving DecidableEq

/-- The in-memory server cache, a dict keyed by guild id. -/
abbrev ServerCache := List (String × CacheEntry)

/-- Dict lookup in the server cache. -/
def cacheLookup (c : ServerCache) (g : String) : Option CacheEntry :=
  (c.find? (fun p => p.1 == g)).map (fun p => p.2)

/-- Dict assignment in the server cache. -/
def cacheSet (c : ServerCache) (g : String) (e : CacheEntry) : ServerCache :=
  (g, e) :: c.filter (fun p => p.1 != g)

/-- The cache TTL of 300 seconds (self.cache_ttl). -/
def cacheTtl : Int := 300

/-- Result of get_server_data_cached: the returned document, the cache
state afterwards, and whether the store was read (find_one executed). -/
structure CachedFetch where
  data : Option ServerDoc
  cache : ServerCache
  readStore : Bool
  deriving DecidableEq

/-- get_server_data_cached (lines 246 to 273): serve a cache entry younger
than the TTL, otherwise read the store when reachable and cache the result
even when it is None; an unreachable store yields None with no caching. -/
def get_server_data_cached (avail : Bool) (db : DB) (cache : ServerCache)
    (now : Int) (g : String) : CachedFetch :=
  let hit : Option (Option ServerDoc) :=
    match cacheLookup cache g with
    | some e => if now - e.timestamp < cacheTtl then some e.data else none
    | none => none
  match hit with
  | some d => ⟨d, cache, false⟩
  | none =>
    if avail then
      let d := findServer db g
      ⟨d, cacheSet cache g ⟨d, now⟩, true⟩
    else ⟨none, cache, false⟩

/-- invalidate_server_cache (lines 275 to 279): drop the entry of g. -/
def invalidate_server_cache (cache : ServerCache) (g : String) : ServerCache :=
  cache.filter (fun p => p.1 != g)

/-! The three periodic loops. -/

/-- Mongo filter remindAt lte now, enabled True. -/
def dueEnabled (now : Int) (r : ReminderDoc) : Bool :=
  decide (r.remindAt ≤ now) && r.enabled

/-- delete_one by object id applied once per listed document. -/
def removeByIds (l : List ReminderDoc) (ids : List Nat) : List ReminderDoc :=
  l.filter (fun x => !ids.contains x.rid)

/-- Output of one reminder_loop tick: the reminders whose notification was
actually delivered, per kind, and the store afterwards. -/
structure ReminderTickOut where
  siteSent : List ReminderDoc
  botSent : List ReminderDoc
  db : DB
  deriving DecidableEq

/-- reminder_loop (lines 320 to 411). fetchOk tells whether fetch_user
(and fetch_guild for the bot kind) succeeds and is truthy; sendOk tells
whether user.send succeeds. A website reminder is delivered when both
hold; a bot reminder additionally requires at least one other opted-in
server. Every due and enabled reminder of either kind is then deleted by
its object id, whatever the delivery outcome. With the store unreachable
the tick does nothing. -/
def reminder_loop (avail : Bool) (fetchOk sendOk : ReminderDoc → Bool)
    (db : DB) (now : Int) : ReminderTickOut :=
  if !avail then ⟨[], [], db⟩
  else
    let dueSite := db.bump_reminders.filter (dueEnabled now)
    let siteSent := dueSite.filter (fun r => fetchOk r && sendOk r)
    let dueBot := db.bot_bump_reminders.filter (dueEnabled now)
    let botSent := dueBot.filter
      (fun r => fetchOk r && !(otherServers db r.guildId).isEmpty && sendOk r)
    ⟨siteSent, botSent,
      { db with
        bump_reminders := removeByIds db.bump_reminders (dueSite.map (fun r => r.rid)),
        bot_bump_reminders := removeByIds db.bot_bump_reminders (dueBot.map (fun r => r.rid)) }⟩

/-- One advertisement delivery attempt of the cross-ad tick: the target
channel of the receiving server and the guild whose ad is rendered. -/
structure AdMessage where
  channelId : String
  adGuildId : String
  deriving DecidableEq

/-- cross_ad_loop (lines 413 to 454). choose stands for random.choice and
is only consulted on non-empty lists. With the store unreachable or fewer
than two opted-in servers the tick sends nothing; otherwise every opted-in
server receives, in its configured channel, the ad of a chosen other
opted-in server. Send failures are logged and do not remove the attempt. -/
def cross_ad_loop (avail : Bool) (choose : List ServerDoc → ServerDoc)
    (db : DB) : List AdMessage :=
  if !avail then []
  else
    let all := db.servers.filter optedIn
    if all.length < 2 then []
    else
      all.filterMap (fun srv =>
        let eligible := all.filter (fun s => s.guildId != srv.guildId)
        if eligible.isEmpty then none
        else
          let ad := choose eligible
          some ⟨srv.crossAdChannelId.getD "", ad.guildId⟩)

/-- cleanup_loop (lines 456 to 481): delete bot_bumps documents with
bumpedAt older than 30 days and bot_bump_reminders documents with
createdAt older than 7 days; nothing else in the store is touched. -/
def cleanup_loop (avail : Bool) (db : DB) (now : Int) : DB :=
  if !avail then db
  else
    { db with
      bot_bumps := db.bot_bumps.filter
        (fun b => !decide (b.bumpedAt < now - 30 * 86400)),
      bot_bump_reminders := db.bot_bump_reminders.filter
        (fun r => !decide (r.createdAt < now - 7 * 86400)) }

/-! Command handlers. Replies are abstracted to tags; one constructor per
distinct reply path, carrying the data the claims mention. -/

/-- Reply tag sent back to the invoking user. -/
inductive Reply where
  | rateLimitedNotice
  | dbUnavailable
  | permissionDenied
  | channelPermsInvalid
  | notListed
  | notConfiguredGuide
  | notConfigured
  | cooldownActive (mins : Int)
  | noOtherServers
  | bumpSuccess (sent failed : Nat)
  | adChannelSet
  | crossAdSet (enabled : Bool)
  | domainCleared
  | domainSet (pref : String)
  | domainShown
  | remindersToggled (enabled : Bool)
  | infoNotListed
  | infoShown
  | previewShown
  | setupShown
  | serverinfoShown
  | cacheRefreshed
  | stillNotFound
  deriving DecidableEq

/-- Output of a handler that may write the store and touches the server
cache. -/
structure HandlerOut where
  reply : Reply
  db : DB
  cache : ServerCache
  deriving DecidableEq

/-- update_one with a guildId filter: rewrite the first matching document. -/
def updateServerFirst (l : List ServerDoc) (g : String)
    (f : ServerDoc → ServerDoc) : List ServerDoc :=
  match l with
  | [] => []
  | s :: rest => if s.guildId == g then f s :: rest else s :: updateServerFirst rest g f

/-- Python truthiness of the crossAdChannelId field (absent or empty is
falsy). -/
def crossAdChannelTruthy (s : ServerDoc) : Bool :=
  match s.crossAdChannelId with
  | some c => !c.isEmpty
  | none => false

/-- set_ad_channel (lines 652 to 729): permission checks, store check,
cached listing check, then set crossAdChannelId on the first matching
document and invalidate the cache entry of the guild. -/
def set_ad_channel (isAdmin chanPermsOk avail : Bool) (db : DB)
    (cache : ServerCache) (now : Int) (g channelId : String) : HandlerOut :=
  if !isAdmin then ⟨.permissionDenied, db, cache⟩
  else if !chanPermsOk then ⟨.channelPermsInvalid, db, cache⟩
  else if !avail then ⟨.dbUnavailable, db, cache⟩
  else
    let fetched := get_server_data_cached avail db cache now g
    match fetched.data with
    | none => ⟨.notListed, db, fetched.cache⟩
    | some _ =>
      let servers1 := updateServerFirst db.servers g
        (fun s => { s with crossAdChannelId := some channelId })
      ⟨.adChannelSet, { db with servers := servers1 },
        invalidate_server_cache fetched.cache g⟩

/-- enable_cross_ad (lines 732 to 794): permission check, store check,
cached listing check, then set crossAdEnabled on the first matching
document and invalidate the cache entry of the guild. -/
def enable_cross_ad (isAdmin avail : Bool) (db : DB) (cache : ServerCache)
    (now : Int) (g : String) (enabled : Bool) : HandlerOut :=
  if !isAdmin then ⟨.permissionDenied, db, cache⟩
  else if !avail then ⟨.dbUnavailable, db, cache⟩
  else
    let fetched := get_server_data_cached avail db cache now g
    match fetched.data with
    | none => ⟨.notListed, db, fetched.cache⟩
    | some _ =>
      let servers1 := updateServerFirst db.servers g
        (fun s => { s with crossAdEnabled := some enabled })
      ⟨.crossAdSet enabled, { db with servers := servers1 },
        invalidate_server_cache fetched.cache g⟩

/-- domain_command (lines 797 to 899): an admin check only when a domain
argument is given, store check, cached listing check, then either unset or
set domainPreference (invalidating the cache) or show the current domain.
The separate domain cache it also clears carries no persisted state and is
not threaded here. -/
def domain_command (isAdmin avail : Bool) (db : DB) (cache : ServerCache)
    (now : Int) (g : String) (setDomain : Option String) : HandlerOut :=
  let setDomainTruthy :=
    match setDomain with
    | some s => !s.isEmpty
    | none => false
  if setDomainTruthy && !isAdmin then ⟨.permissionDenied, db, cache⟩
  else if !avail then ⟨.dbUnavailable, db, cache⟩
  else
    let fetched := get_server_data_cached avail db cache now g
    match fetched.data with
    | none => ⟨.notListed, db, fetched.cache⟩
    | some _ =>
      if setDomainTruthy then
        match setDomain with
        | some s =>
          if s == "auto" then
            let servers1 := updateServerFirst db.servers g
              (fun x => { x with domainPreference := none })
            ⟨.domainCleared, { db with servers := servers1 },
              invalidate_server_cache fetched.cache g⟩
          else
            let servers1 := updateServerFirst db.servers g
              (fun x => { x with domainPreference := some s })
            ⟨.domainSet s, { db with servers := servers1 },
              invalidate_server_cache fetched.cache g⟩
        | none => ⟨.domainShown, db, fetched.cache⟩
      else ⟨.domainShown, db, fetched.cache⟩

/-- update_one with upsert on user_settings: rewrite the first matching
document or append a fresh one. -/
def upsertUserSetting (l : List UserSetting) (uid : String) (b : Bool) : List UserSetting :=
  match l with
  | [] => [⟨uid, some b⟩]
  | u :: rest =>
    if u.userId == uid then { u with botRemindersEnabled := some b } :: rest
    else u :: upsertUserSetting rest uid b

/-- Whether the user has bot reminders opted in: the user_settings
document exists and its botRemindersEnabled flag defaults to False. -/
def userOptedIn (db : DB) (u : String) : Bool :=
  match db.user_settings.find? (fun x => x.userId == u) with
  | some x => x.botRemindersEnabled.getD false
  | none => false

/-- toggle_bot_reminders (lines 1177 to 1227): store check, then flip the
current setting with an upsert. -/
def toggle_bot_reminders (avail : Bool) (db : DB) (u : String) : Reply × DB :=
  if !avail then (.dbUnavailable, db)
  else
    let newSetting := !userOptedIn db u
    (.remindersToggled newSetting,
      { db with user_settings := upsertUserSetting db.user_settings u newSetting })

/-- Outcome of one advertisement channel delivery inside the bump command:
the send succeeded, raised (counted failed), or the fetched channel had no
send attribute (counted neither). -/
inductive DeliveryOutcome where
  | delivered
  | failedSend
  | skipped
  deriving DecidableEq

/-- bump_command (lines 902 to 1088): rate limit, store check, listing
check, configuration check, the one-hour cooldown on the latest bump
record, the other-servers check, the delivery fan-out, the insertion of a
new bump record, and the optional bot reminder insertion when at least one
delivery succeeded and the user opted in. -/
def bump_command (rateLimited avail : Bool) (deliver : ServerDoc → DeliveryOutcome)
    (db : DB) (now : Int) (g u : String) : Reply × DB :=
  if rateLimited then (.rateLimitedNotice, db)
  else if !avail then (.dbUnavailable, db)
  else
    match findServer db g with
    | none => (.notListed, db)
    | some serverInDb =>
      match db.servers.find? (fun s => s.guildId == g && optedIn s) with
      | none =>
        if serverInDb.crossAdEnabled == some false || !crossAdChannelTruthy serverInDb
        then (.notConfiguredGuide, db)
        else (.notConfigured, db)
      | some thisServer =>
        let cooldownHit : Option Int :=
          match lastBumpAt db g with
          | some t => if now - t < 3600 then some ((t + 3600 - now) / 60) else none
          | none => none
        match cooldownHit with
        | some mins => (.cooldownActive mins, db)
        | none =>
          let others := otherServers db g
          if others.isEmpty then (.noOtherServers, db)
          else
            let _ := thisServer
            let sent := (others.filter (fun s => deliver s == .delivered)).length
            let failed := (others.filter (fun s => deliver s == .failedSend)).length
            let db1 := { db with bot_bumps := db.bot_bumps ++ [⟨g, now, u⟩] }
            let db2 :=
              if decide (0 < sent) && userOptedIn db u then
                { db1 with
                  bot_bump_reminders :=
                    db1.bot_bump_reminders ++ [⟨db1.nextId, u, g, now + 3600, true, now⟩],
                  nextId := db1.nextId + 1 }
              else db1
            (.bumpSuccess sent failed, db2)

/-- preview_command (lines 1091 to 1173): store check, listing check,
configuration check, then the rendered ad is shown; read only. -/
def preview_command (avail : Bool) (db : DB) (g : String) : Reply :=
  if !avail then .dbUnavailable
  else
    match findServer db g with
    | none => .notListed
    | some serverInDb =>
      match db.servers.find? (fun s => s.guildId == g && optedIn s) with
      | none =>
        if serverInDb.crossAdEnabled == some false || !crossAdChannelTruthy serverInDb
        then .notConfiguredGuide
        else .notConfigured
      | some _ => .previewShown

/-- info_command (lines 1230 to 1370): store check, then statistics are
shown, with a distinct not-listed variant; read only. -/
def info_command (avail : Bool) (db : DB) (g : String) : Reply :=
  if !avail then .dbUnavailable
  else
    match findServer db g with
    | none => .infoNotListed
    | some _ => .infoShown

/-- setup_command (lines 1373 to 1538): admin check, store check, listing
check, then the setup progress is shown; read only. -/
def setup_command (isAdmin avail : Bool) (db : DB) (g : String) : Reply :=
  if !isAdmin then .permissionDenied
  else if !avail then .dbUnavailable
  else
    match findServer db g with
    | none => .notListed
    | some _ => .setupShown

/-- serverinfo_command (lines 1547 to 1747): admin check, store check,
then the server details are shown; read only. -/
def serverinfo_command (isAdmin avail : Bool) (db : DB) (g : String) : Reply :=
  if !isAdmin then .permissionDenied
  else if !avail then .dbUnavailable
  else
    let _ := findServer db g
    .serverinfoShown

/-- refresh_command (lines 1896 to 1972): rate limit, unconditional cache
invalidation for the guild (the domain cache it also clears carries no
persisted state), then a cached lookup, now a guaranteed cache miss. A
found document yields the refreshed confirmation; both a missing document
and an unreachable store leave the lookup with None, yielding the
still-not-found onboarding guidance (get_server_data_cached swallows its
own store errors, so the except branch at line 1967 is unreachable).
The handler performs no store write. -/
def refresh_command (rateLimited avail : Bool) (db : DB) (cache : ServerCache)
    (now : Int) (g : String) : Reply × ServerCache :=
  if rateLimited then (.rateLimitedNotice, cache)
  else
    let cache1 := invalidate_server_cache cache g
    let fetched := get_server_data_cached avail db cache1 now g
    match fetched.data with
    | some _ => (.cacheRefreshed, fetched.cache)
    | none => (.stillNotFound, fetched.cache)

/-- Whether the one-hour cooldown check of the bump command passes: there
is no bump record for the guild, or the latest one is at least 3600
seconds old. -/
def cooldownPassed (db : DB) (now : Int) (g : String) : Bool :=
  match lastBumpAt db g with
  | none => true
  | some t => decide (3600 ≤ now - t)

/-- Remaining cooldown minutes reported on a rejected bump, as computed by
the command: int of (bumpedAt plus one hour minus now) over 60. -/
def remainingMins (now t : Int) : Int := (t + 3600 - now) / 60

/-- Number of ad deliveries of the bump fan-out that succeed. -/
def sentCount (db : DB) (g : String) (deliver : ServerDoc → DeliveryOutcome) : Nat :=
  ((otherServers db g).filter (fun s => deliver s == .delivered)).length

/-- Number of ad deliveries of the bump fan-out that raise. -/
def failedCount (db : DB) (g : String) (deliver : ServerDoc → DeliveryOutcome) : Nat :=
  ((otherServers db g).filter (fun s => deliver s == .failedSend)).length

/-! Helper lemmas. -/

lemma bump_command_cooldown_reject {db : DB} {now : Int} {g u : String}
    {deliver : ServerDoc → DeliveryOutcome} {ts sd : ServerDoc} {t : Int}
    (hts : db.servers.find? (fun s => s.guildId == g && optedIn s) = some ts)
    (hsd : findServer db g = some sd)
    (hl : lastBumpAt db g = some t) (hlt : now - t < 3600) :
    bump_command false true deliver db now g u =
      (.cooldownActive ((t + 3600 - now) / 60), db) := by
  unfold bump_command
  simp only [hsd, hts, hl]
  simp [hlt]

lemma bump_command_accepts {db : DB} {now : Int} {g u : String}
    {deliver : ServerDoc → DeliveryOutcome} {ts sd : ServerDoc}
    (hts : db.servers.find? (fun s => s.guildId == g && optedIn s) = some ts)
    (hsd : findServer db g = some sd)
    (hcool : cooldownPassed db now g = true)
    (hothers : otherServers db g ≠ []) :
    bump_command false true deliver db now g u =
      (.bumpSuccess (sentCount db g deliver) (failedCount db g deliver),
        if decide (0 < sentCount db g deliver) && userOptedIn db u then
          { db with
            bot_bumps := db.bot_bumps ++ [⟨g, now, u⟩],
            bot_bump_reminders :=
              db.bot_bump_reminders ++ [⟨db.nextId, u, g, now + 3600, true, now⟩],
            nextId := db.nextId + 1 }
        else { db with bot_bumps := db.bot_bumps ++ [⟨g, now, u⟩] }) := by
  have hoe : (otherServers db g).isEmpty = false := by
    cases ho : otherServers db g with
    | nil => exact absurd ho hothers
    | cons a tl => rfl
  unfold bump_command
  simp only [hsd, hts]
  unfold cooldownPassed at hcool
  cases hl : lastBumpAt db g with
  | none =>
    simp only [hl, hoe]
    simp [sentCount, failedCount]
  | some t =>
    rw [hl] at hcool
    have hnl : ¬ (now - t < 3600) := by
      simp at hcool
      omega
    simp only [hl, hoe]
    simp [hnl, sentCount, failedCount]

lemma domainsGet_mem {k d : String} (h : domainsGet k = some d) : d ∈ domainsValues := by
  unfold domainsGet at h
  cases hf : DOMAINS.find? (fun p => p.1 == k) with
  | none => rw [hf] at h; simp at h
  | some p =>
    rw [hf] at h
    injection h with h2
    rw [← h2]
    exact List.mem_map_of_mem (fun p => p.2) (List.mem_of_find?_eq_some hf)

lemma guildHash_lt_two (g : String) : guildHash g < 2 :=
  Nat.mod_lt _ (by decide)

lemma dbPreferenceDomain_mem {avail : Bool} {db : DB} {g d : String}
    (h : dbPreferenceDomain avail db g = some d) : d ∈ domainsValues := by
  unfold dbPreferenceDomain at h
  split at h
  · exact absurd h (by simp)
  · split at h
    · exact absurd h (by simp)
    · split at h
      · exact absurd h (by simp)
      · split at h
        · exact absurd h (by simp)
        · split at h
          · exact absurd h (by simp)
          · exact domainsGet_mem h

lemma envPreferredDomain_mem {cfg : BotConfig} {d : String}
    (h : envPreferredDomain cfg = some d) : d ∈ domainsValues := by
  unfold envPreferredDomain at h
  split at h
  · exact absurd h (by simp)
  · split at h
    · exact absurd h (by simp)
    · exact domainsGet_mem h

lemma envGuildMappingDomain_mem {cfg : BotConfig} {g d : String}
    (h : envGuildMappingDomain cfg g = some d) : d ∈ domainsValues := by
  unfold envGuildMappingDomain at h
  split at h
  · exact absurd h (by simp)
  · split at h
    · exact absurd h (by simp)
    · split at h
      · exact absurd h (by simp)
      · exact domainsGet_mem h

lemma loadBalanceDomain_mem {cfg : BotConfig} {g d : String}
    (h : loadBalanceDomain cfg g = some d) : d ∈ domainsValues := by
  unfold loadBalanceDomain at h
  split at h
  · exact absurd h (by simp)
  · split at h
    · have hlt := guildHash_lt_two g
      have h01 : guildHash g = 0 ∨ guildHash g = 1 := by omega
      simp only [Option.some_inj] at h
      rcases h01 with h0 | h1
      · rw [h0] at h; rw [← h]; decide
      · rw [h1] at h; rw [← h]; decide
    · exact absurd h (by simp)

/-! Claim theorems. -/

/-- C4: domain resolution evaluates, in order, the stored per-guild
domainPreference, the PREFERRED_DOMAIN override, the GUILD_DOMAIN_MAPPING
static mapping, the load-balancing hash split, and the fixed default; the
first rule yielding a valid non-empty domain wins, and the result is
always one of the two configured hostnames. -/
theorem C4_domain_resolution_precedence (cfg : BotConfig) (avail : Bool)
    (db : DB) (g : String) :
    resolve_domain cfg avail db g = resolve_domain_rules_spec cfg avail db g ∧
    resolve_domain cfg avail db g ∈ domainsValues := by
  constructor
  · unfold resolve_domain resolve_domain_rules_spec
    cases h1 : dbPreferenceDomain avail db g <;>
      cases h2 : envPreferredDomain cfg <;>
        cases h3 : envGuildMappingDomain cfg g <;>
          cases h4 : loadBalanceDomain cfg g <;>
            simp [firstSome]
  · unfold resolve_domain
    cases h1 : dbPreferenceDomain avail db g with
    | some d => exact dbPreferenceDomain_mem h1
    | none =>
      cases h2 : envPreferredDomain cfg with
      | some d => exact envPreferredDomain_mem h2
      | none =>
        cases h3 : envGuildMappingDomain cfg g with
        | some d => exact envGuildMappingDomain_mem h3
        | none =>
          cases h4 : loadBalanceDomain cfg g with
          | some d => exact loadBalanceDomain_mem h4
          | none => decide

/-- C2: on a cross-ad tick with fewer than two opted-in servers nothing is
sent; with exactly two opted-in servers A and B, the tick sends the ad of
B into the configured channel of A and the ad of A into the configured
channel of B, whichever server random.choice picks from each singleton
candidate list. -/
theorem C2_cross_ad_two_guilds (db : DB) (choose : List ServerDoc → ServerDoc)
    (A B : ServerDoc)
    (hchoose : ∀ l : List ServerDoc, l ≠ [] → choose l ∈ l) :
    ((db.servers.filter optedIn).length < 2 → cross_ad_loop true choose db = []) ∧
    (db.servers.filter optedIn = [A, B] → A.guildId ≠ B.guildId →
      cross_ad_loop true choose db =
        [⟨A.crossAdChannelId.getD "", B.guildId⟩,
         ⟨B.crossAdChannelId.getD "", A.guildId⟩]) := by
  constructor
  · intro hlen
    unfold cross_ad_loop
    simp [hlen]
  · intro heq hne
    have hA : choose [B] = B := by
      have h := hchoose [B] (by simp)
      simpa using h
    have hB : choose [A] = A := by
      have h := hchoose [A] (by simp)
      simpa using h
    have eA : (A.guildId != A.guildId) = false := by simp
    have eBA : (B.guildId != A.guildId) = true := by
      simp [bne]
      exact fun hc => hne hc.symm
    have eB : (B.guildId != B.guildId) = false := by simp
    have eAB : (A.guildId != B.guildId) = true := by
      simp [bne]
      exact hne
    unfold cross_ad_loop
    simp only [heq]
    simp [List.filter, List.filterMap, eA, eBA, eB, eAB, hA, hB]

/-- Witness for C2: a store with exactly the two opted-in guilds g1 and g2
pairs each with the other. -/
theorem C2_cross_ad_two_guilds_witness :
    cross_ad_loop true (fun l => l.headD ⟨"", none, none, none⟩)
      ⟨[⟨"g1", some true, some "c1", none⟩, ⟨"g2", some true, some "c2", none⟩],
        [], [], [], [], 0⟩ =
      [⟨"c1", "g2"⟩, ⟨"c2", "g1"⟩] := by
  have hch : ∀ l : List ServerDoc, l ≠ [] → l.headD ⟨"", none, none, none⟩ ∈ l := by
    intro l hl
    cases l with
    | nil => exact absurd rfl hl
    | cons a t => simp
  exact (C2_cross_ad_two_guilds _ _
    ⟨"g1", some true, some "c1", none⟩ ⟨"g2", some true, some "c2", none⟩
    hch).2 (by decide) (by decide)

lemma not_mem_removeByIds_due {l : List ReminderDoc} {now : Int} {r : ReminderDoc}
    (hd : dueEnabled now r = true) :
    r ∉ removeByIds l ((l.filter (dueEnabled now)).map (fun x => x.rid)) := by
  intro hmem
  unfold removeByIds at hmem
  rw [List.mem_filter] at hmem
  obtain ⟨hl, hc⟩ := hmem
  have hin : r.rid ∈ (l.filter (dueEnabled now)).map (fun x => x.rid) :=
    List.mem_map_of_mem _ (List.mem_filter.mpr ⟨hl, hd⟩)
  have hcontains : ((l.filter (dueEnabled now)).map (fun x => x.rid)).contains r.rid = true :=
    List.elem_eq_true_of_mem hin
  rw [hcontains] at hc
  cases hc

/-- C3: a due (remindAt at or before now) and enabled reminder of either
kind no longer exists in its collection after one reminder-loop tick,
whatever the delivery oracles report. -/
theorem C3_due_reminder_deleted (fetchOk sendOk : ReminderDoc → Bool)
    (db : DB) (now : Int) (r : ReminderDoc)
    (hdue : r.remindAt ≤ now) (hen : r.enabled = true) :
    r ∉ (reminder_loop true fetchOk sendOk db now).db.bump_reminders ∧
    r ∉ (reminder_loop true fetchOk sendOk db now).db.bot_bump_reminders := by
  have hd : dueEnabled now r = true := by
    simp [dueEnabled, hdue, hen]
  unfold reminder_loop
  exact ⟨not_mem_removeByIds_due hd, not_mem_removeByIds_due hd⟩

/-- Witness for C3: a due site reminder and a due bot reminder are both
gone after a tick whose deliveries all fail. -/
theorem C3_due_reminder_deleted_witness :
    (1691000 : Int) ≤ 1691500 ∧
    (⟨7, "u1", "g1", 1691000, true, 1690000⟩ : ReminderDoc).enabled = true ∧
    (⟨7, "u1", "g1", 1691000, true, 1690000⟩ : ReminderDoc) ∉
      (reminder_loop true (fun _ => false) (fun _ => false)
        ⟨[], [], [⟨7, "u1", "g1", 1691000, true, 1690000⟩],
          [⟨7, "u1", "g1", 1691000, true, 1690000⟩], [], 0⟩ 1691500).db.bump_reminders := by
  refine ⟨by decide, by decide, ?_⟩
  exact (C3_due_reminder_deleted (fun _ => false) (fun _ => false)
    ⟨[], [], [⟨7, "u1", "g1", 1691000, true, 1690000⟩],
      [⟨7, "u1", "g1", 1691000, true, 1690000⟩], [], 0⟩ 1691500
    ⟨7, "u1", "g1", 1691000, true, 1690000⟩ (by decide) (by decide)).1

/-- C9: a due and enabled bot reminder whose guild has no other opted-in
server is not notified, yet is still deleted by the same tick. -/
theorem C9_bot_reminder_no_targets (fetchOk sendOk : ReminderDoc → Bool)
    (db : DB) (now : Int) (r : ReminderDoc)
    (hdue : r.remindAt ≤ now) (hen : r.enabled = true)
    (hno : otherServers db r.guildId = []) :
    r ∉ (reminder_loop true fetchOk sendOk db now).botSent ∧
    r ∉ (reminder_loop true fetchOk sendOk db now).db.bot_bump_reminders := by
  have hd : dueEnabled now r = true := by
    simp [dueEnabled, hdue, hen]
  constructor
  · intro hmem
    unfold reminder_loop at hmem
    rw [if_neg (by decide)] at hmem
    dsimp only at hmem
    rw [List.mem_filter] at hmem
    obtain ⟨_, hc⟩ := hmem
    rw [hno] at hc
    simp at hc
  · unfold reminder_loop
    exact not_mem_removeByIds_due hd

/-- Witness for C9: the only opted-in server is the guild of the reminder
itself, so no notification goes out and the record is deleted. -/
theorem C9_bot_reminder_no_targets_witness :
    (1691000 : Int) ≤ 1691500 ∧
    otherServers
      ⟨[⟨"g1", some true, some "c1", none⟩], [], [],
        [⟨3, "u1", "g1", 1691000, true, 1690000⟩], [], 0⟩ "g1" = [] ∧
    (⟨3, "u1", "g1", 1691000, true, 1690000⟩ : ReminderDoc) ∉
      (reminder_loop true (fun _ => true) (fun _ => true)
        ⟨[⟨"g1", some true, some "c1", none⟩], [], [],
          [⟨3, "u1", "g1", 1691000, true, 1690000⟩], [], 0⟩ 1691500).botSent := by
  refine ⟨by decide, by decide, ?_⟩
  exact (C9_bot_reminder_no_targets (fun _ => true) (fun _ => true)
    ⟨[⟨"g1", some true, some "c1", none⟩], [], [],
      [⟨3, "u1", "g1", 1691000, true, 1690000⟩], [], 0⟩ 1691500
    ⟨3, "u1", "g1", 1691000, true, 1690000⟩ (by decide) (by decide) (by decide)).1

/-- Counterexample for C5 as frozen: a site reminder created ten days ago
(createdAt 136000 at now 1000000) is still in its collection after a
cleanup tick, though the claim requires every reminder record older than
seven days, of both kinds, to be removed. -/
theorem C5_cleanup_counterexample :
    (⟨4, "u1", "g1", 200000, true, 136000⟩ : ReminderDoc) ∈
      (cleanup_loop true
        ⟨[], [], [⟨4, "u1", "g1", 200000, true, 136000⟩], [], [], 0⟩
        1000000).bump_reminders := by decide

/-- C5 (amended): one cleanup tick removes exactly the bump records with
bumpedAt older than 30 days and the bot reminder records with createdAt
older than 7 days; the site reminder collection and every other
collection are left unchanged. -/
theorem C5_cleanup_thresholds (db : DB) (now : Int) (b : BumpDoc) (r : ReminderDoc)
    (hb : b ∈ db.bot_bumps) (hr : r ∈ db.bot_bump_reminders) :
    (b ∈ (cleanup_loop true db now).bot_bumps ↔ now - 30 * 86400 ≤ b.bumpedAt) ∧
    (r ∈ (cleanup_loop true db now).bot_bump_reminders ↔ now - 7 * 86400 ≤ r.createdAt) ∧
    (cleanup_loop true db now).bump_reminders = db.bump_reminders ∧
    (cleanup_loop true db now).servers = db.servers ∧
    (cleanup_loop true db now).user_settings = db.user_settings := by
  refine ⟨?_, ?_, rfl, rfl, rfl⟩
  · rw [show (cleanup_loop true db now).bot_bumps =
        db.bot_bumps.filter (fun x => !decide (x.bumpedAt < now - 30 * 86400)) from rfl]
    rw [List.mem_filter]
    constructor
    · rintro ⟨-, hp⟩
      simp at hp
      omega
    · intro hle
      refine ⟨hb, ?_⟩
      simp
      omega
  · rw [show (cleanup_loop true db now).bot_bump_reminders =
        db.bot_bump_reminders.filter (fun x => !decide (x.createdAt < now - 7 * 86400)) from rfl]
    rw [List.mem_filter]
    constructor
    · rintro ⟨-, hp⟩
      simp at hp
      omega
    · intro hle
      refine ⟨hr, ?_⟩
      simp
      omega

/-- Witness for C5 (amended): a 40-day-old bump record and an 8-day-old
bot reminder at now 4000000. -/
theorem C5_cleanup_thresholds_witness :
    (⟨"g1", 544000, "u1"⟩ : BumpDoc) ∈
      [(⟨"g1", 544000, "u1"⟩ : BumpDoc)] ∧
    (⟨6, "u1", "g1", 700000, true, 3308800⟩ : ReminderDoc) ∈
      [(⟨6, "u1", "g1", 700000, true, 3308800⟩ : ReminderDoc)] ∧
    ¬ ((⟨"g1", 544000, "u1"⟩ : BumpDoc) ∈
      (cleanup_loop true
        ⟨[], [⟨"g1", 544000, "u1"⟩], [], [⟨6, "u1", "g1", 700000, true, 3308800⟩], [], 0⟩
        4000000).bot_bumps) := by
  refine ⟨by decide, by decide, ?_⟩
  intro hmem
  have h := (C5_cleanup_thresholds
    ⟨[], [⟨"g1", 544000, "u1"⟩], [], [⟨6, "u1", "g1", 700000, true, 3308800⟩], [], 0⟩
    4000000 ⟨"g1", 544000, "u1"⟩ ⟨6, "u1", "g1", 700000, true, 3308800⟩
    (by decide) (by decide)).1
  have := h.mp hmem
  exact absurd this (by decide)

lemma cacheLookup_invalidate (cache : ServerCache) (g : String) :
    cacheLookup (invalidate_server_cache cache g) g = none := by
  have hf : (invalidate_server_cache cache g).find? (fun p => p.1 == g) = none := by
    rw [List.find?_eq_none]
    intro x hx
    rw [invalidate_server_cache, List.mem_filter] at hx
    obtain ⟨-, hxg⟩ := hx
    simp [bne] at hxg
    simp [hxg]
  unfold cacheLookup
  rw [hf]
  rfl

lemma cacheLookup_set (cache : ServerCache) (g : String) (e : CacheEntry) :
    cacheLookup (cacheSet cache g e) g = some e := by
  unfold cacheLookup cacheSet
  simp [List.find?]

/-- C7: a cache entry strictly older than 300 seconds is never served:
the lookup performs a fresh store read instead; and after an explicit
invalidation for the guild, the next lookup also reads the store. -/
theorem C7_cache_ttl_and_invalidation (db : DB) (cache : ServerCache)
    (now : Int) (g : String) (e : CacheEntry)
    (hentry : cacheLookup cache g = some e) (hold : 300 < now - e.timestamp) :
    get_server_data_cached true db cache now g =
      ⟨findServer db g, cacheSet cache g ⟨findServer db g, now⟩, true⟩ ∧
    get_server_data_cached true db (invalidate_server_cache cache g) now g =
      ⟨findServer db g,
        cacheSet (invalidate_server_cache cache g) g ⟨findServer db g, now⟩, true⟩ := by
  constructor
  · have hnl : ¬ (now - e.timestamp < cacheTtl) := by
      unfold cacheTtl
      omega
    simp [get_server_data_cached, hentry, hnl]
  · have hmiss := cacheLookup_invalidate cache g
    simp [get_server_data_cached, hmiss]

/-- Witness for C7: an entry stored at time 0 queried at time 400. -/
theorem C7_cache_ttl_and_invalidation_witness :
    cacheLookup [("g1", (⟨none, 0⟩ : CacheEntry))] "g1" = some ⟨none, 0⟩ ∧
    (300 : Int) < 400 - 0 ∧
    (get_server_data_cached true ⟨[], [], [], [], [], 0⟩
      [("g1", ⟨none, 0⟩)] 400 "g1").readStore = true := by
  refine ⟨by decide, by decide, ?_⟩
  rw [(C7_cache_ttl_and_invalidation ⟨[], [], [], [], [], 0⟩
    [("g1", ⟨none, 0⟩)] 400 "g1" ⟨none, 0⟩ (by decide) (by decide)).1]

/-- C10: when the store has no record for a guild, the cached lookup
stores the absence itself; every lookup within the TTL then reports the
guild as unlisted without reading the store, even against a store that
meanwhile contains the guild, until the TTL expires or the entry is
invalidated, after which the store is read again. -/
theorem C10_negative_caching (db db2 : DB) (cache : ServerCache)
    (now now2 : Int) (g : String)
    (hmiss : cacheLookup cache g = none) (habsent : findServer db g = none) :
    (get_server_data_cached true db cache now g).data = none ∧
    (get_server_data_cached true db cache now g).readStore = true ∧
    (now2 - now < 300 →
      get_server_data_cached true db2
          (get_server_data_cached true db cache now g).cache now2 g =
        ⟨none, (get_server_data_cached true db cache now g).cache, false⟩) ∧
    (300 ≤ now2 - now →
      get_server_data_cached true db2
          (get_server_data_cached true db cache now g).cache now2 g =
        ⟨findServer db2 g,
          cacheSet (get_server_data_cached true db cache now g).cache g
            ⟨findServer db2 g, now2⟩, true⟩) ∧
    get_server_data_cached true db2
        (invalidate_server_cache (get_server_data_cached true db cache now g).cache g) now2 g =
      ⟨findServer db2 g,
        cacheSet (invalidate_server_cache (get_server_data_cached true db cache now g).cache g) g
          ⟨findServer db2 g, now2⟩, true⟩ := by
  have h1 : get_server_data_cached true db cache now g =
      ⟨none, cacheSet cache g ⟨none, now⟩, true⟩ := by
    simp [get_server_data_cached, hmiss, habsent]
  rw [h1]
  have hset := cacheLookup_set cache g (⟨none, now⟩ : CacheEntry)
  refine ⟨rfl, rfl, ?_, ?_, ?_⟩
  · intro hfresh
    have hlt : now2 - now < cacheTtl := by
      unfold cacheTtl
      omega
    simp [get_server_data_cached, hset, hlt]
  · intro hexp
    have hnl : ¬ (now2 - now < cacheTtl) := by
      unfold cacheTtl
      omega
    simp [get_server_data_cached, hset, hnl]
  · have hinv := cacheLookup_invalidate (cacheSet cache g (⟨none, now⟩ : CacheEntry)) g
    simp [get_server_data_cached, hinv]

/-- Witness for C10: guild g1 is absent at the first lookup; a store that
now lists g1 is ignored 100 seconds later. -/
theorem C10_negative_caching_witness :
    cacheLookup [] "g1" = none ∧
    findServer ⟨[], [], [], [], [], 0⟩ "g1" = none ∧
    ((100 : Int) - 0 < 300 →
      get_server_data_cached true
          ⟨[⟨"g1", some true, some "c1", none⟩], [], [], [], [], 0⟩
          (get_server_data_cached true ⟨[], [], [], [], [], 0⟩ [] 0 "g1").cache 100 "g1" =
        ⟨none, (get_server_data_cached true ⟨[], [], [], [], [], 0⟩ [] 0 "g1").cache, false⟩) := by
  refine ⟨by decide, by decide, ?_⟩
  exact (C10_negative_caching ⟨[], [], [], [], [], 0⟩
    ⟨[⟨"g1", some true, some "c1", none⟩], [], [], [], [], 0⟩
    [] 0 100 "g1" (by decide) (by decide)).2.2.1

/-- Counterexample for C1 as frozen: guild g1 is listed and configured,
no bump record exists, yet the command replies that no other server is
opted in and inserts no bump record. -/
theorem C1_bump_cooldown_counterexample :
    ((⟨[⟨"g1", some true, some "c1", none⟩], [], [], [], [], 0⟩ : DB).servers.find?
      (fun s => s.guildId == "g1" && optedIn s)).isSome = true ∧
    lastBumpAt ⟨[⟨"g1", some true, some "c1", none⟩], [], [], [], [], 0⟩ "g1" = none ∧
    bump_command false true (fun _ => .delivered)
        ⟨[⟨"g1", some true, some "c1", none⟩], [], [], [], [], 0⟩ 1000 "g1" "u1" =
      (.noOtherServers, ⟨[⟨"g1", some true, some "c1", none⟩], [], [], [], [], 0⟩) := by
  decide

/-- C1 (amended): for a listed and configured guild, a latest bump record
younger than one hour makes the bump command reply with the remaining
minutes and leave the store unchanged; when the cooldown passes (no bump
record, or one at least an hour old) and at least one other opted-in
server exists, the command inserts a bump record carrying the current
time and replies with the delivery counts. -/
theorem C1_bump_cooldown (db : DB) (now : Int) (g u : String)
    (deliver : ServerDoc → DeliveryOutcome)
    (hconf : (db.servers.find? (fun s => s.guildId == g && optedIn s)).isSome = true) :
    (∀ t, lastBumpAt db g = some t → now - t < 3600 →
      bump_command false true deliver db now g u =
        (.cooldownActive (remainingMins now t), db)) ∧
    (cooldownPassed db now g = true → otherServers db g ≠ [] →
      (bump_command false true deliver db now g u).2.bot_bumps =
        db.bot_bumps ++ [⟨g, now, u⟩] ∧
      (bump_command false true deliver db now g u).1 =
        .bumpSuccess (sentCount db g deliver) (failedCount db g deliver)) := by
  obtain ⟨ts, hts⟩ := Option.isSome_iff_exists.mp hconf
  have hmem := List.mem_of_find?_eq_some hts
  have hpred := List.find?_some hts
  rw [Bool.and_eq_true] at hpred
  have hsd : ∃ sd, findServer db g = some sd := by
    apply Option.isSome_iff_exists.mp
    rw [findServer, List.find?_isSome]
    exact ⟨ts, hmem, hpred.1⟩
  obtain ⟨sd, hsd⟩ := hsd
  constructor
  · intro t hl hlt
    exact bump_command_cooldown_reject hts hsd hl hlt
  · intro hcool hothers
    rw [bump_command_accepts hts hsd hcool hothers]
    constructor
    · by_cases hc : (decide (0 < sentCount db g deliver) && userOptedIn db u) = true
      · rw [if_pos hc]
      · rw [if_neg hc]
    · rfl

/-- Witness for C1: a guild bumped 30 minutes ago is rejected with 30
minutes remaining. -/
theorem C1_bump_cooldown_witness :
    ((⟨[⟨"g1", some true, some "c1", none⟩], [⟨"g1", 0, "u1"⟩], [], [], [], 0⟩ : DB).servers.find?
      (fun s => s.guildId == "g1" && optedIn s)).isSome = true ∧
    lastBumpAt ⟨[⟨"g1", some true, some "c1", none⟩], [⟨"g1", 0, "u1"⟩], [], [], [], 0⟩ "g1" =
      some 0 ∧
    (1800 : Int) - 0 < 3600 ∧
    bump_command false true (fun _ => .delivered)
        ⟨[⟨"g1", some true, some "c1", none⟩], [⟨"g1", 0, "u1"⟩], [], [], [], 0⟩ 1800 "g1" "u1" =
      (.cooldownActive 30,
        ⟨[⟨"g1", some true, some "c1", none⟩], [⟨"g1", 0, "u1"⟩], [], [], [], 0⟩) := by
  refine ⟨by decide, by decide, by decide, ?_⟩
  have h := (C1_bump_cooldown
    ⟨[⟨"g1", some true, some "c1", none⟩], [⟨"g1", 0, "u1"⟩], [], [], [], 0⟩
    1800 "g1" "u1" (fun _ => .delivered) (by decide)).1 0 (by decide) (by decide)
  rw [h]
  rfl

/-- Counterexample for C6 as frozen: the cooldown passes and the user has
bot reminders opted in, yet no reminder record is created because every
ad delivery failed. -/
theorem C6_bump_reminder_counterexample :
    userOptedIn
      ⟨[⟨"g1", some true, some "c1", none⟩, ⟨"g2", some true, some "c2", none⟩],
        [], [], [], [⟨"u1", some true⟩], 0⟩ "u1" = true ∧
    cooldownPassed
      ⟨[⟨"g1", some true, some "c1", none⟩, ⟨"g2", some true, some "c2", none⟩],
        [], [], [], [⟨"u1", some true⟩], 0⟩ 1000 "g1" = true ∧
    (bump_command false true (fun _ => .failedSend)
        ⟨[⟨"g1", some true, some "c1", none⟩, ⟨"g2", some true, some "c2", none⟩],
          [], [], [], [⟨"u1", some true⟩], 0⟩ 1000 "g1" "u1").2.bot_bump_reminders =
      [] := by
  decide

/-- C6 (amended): when the bump command passes the cooldown check, some
other opted-in server exists, the acting user has bot reminders opted in
and at least one ad delivery succeeded, a bot reminder due one hour after
the bump is appended for that user and guild; with the user not opted in,
or with no successful delivery, the reminder collection is unchanged. -/
theorem C6_bump_reminder_optin (db : DB) (now : Int) (g u : String)
    (deliver : ServerDoc → DeliveryOutcome)
    (hconf : (db.servers.find? (fun s => s.guildId == g && optedIn s)).isSome = true)
    (hcool : cooldownPassed db now g = true)
    (hothers : otherServers db g ≠ []) :
    (userOptedIn db u = true → 0 < sentCount db g deliver →
      (bump_command false true deliver db now g u).2.bot_bump_reminders =
        db.bot_bump_reminders ++ [⟨db.nextId, u, g, now + 3600, true, now⟩]) ∧
    (userOptedIn db u = false →
      (bump_command false true deliver db now g u).2.bot_bump_reminders =
        db.bot_bump_reminders) ∧
    (sentCount db g deliver = 0 →
      (bump_command false true deliver db now g u).2.bot_bump_reminders =
        db.bot_bump_reminders) := by
  obtain ⟨ts, hts⟩ := Option.isSome_iff_exists.mp hconf
  have hmem := List.mem_of_find?_eq_some hts
  have hpred := List.find?_some hts
  rw [Bool.and_eq_true] at hpred
  have hsd : ∃ sd, findServer db g = some sd := by
    apply Option.isSome_iff_exists.mp
    rw [findServer, List.find?_isSome]
    exact ⟨ts, hmem, hpred.1⟩
  obtain ⟨sd, hsd⟩ := hsd
  rw [bump_command_accepts hts hsd hcool hothers]
  refine ⟨?_, ?_, ?_⟩
  · intro hopt hsent
    rw [if_pos]
    rw [hopt, Bool.and_true]
    exact decide_eq_true hsent
  · intro hopt
    rw [if_neg]
    rw [hopt, Bool.and_false]
    exact Bool.false_ne_true
  · intro hzero
    rw [if_neg]
    rw [hzero]
    simp

/-- Witness for C6: with one other opted-in server, a successful delivery
and an opted-in user, the reminder for one hour later is appended. -/
theorem C6_bump_reminder_optin_witness :
    userOptedIn
      ⟨[⟨"g1", some true, some "c1", none⟩, ⟨"g2", some true, some "c2", none⟩],
        [], [], [], [⟨"u1", some true⟩], 0⟩ "u1" = true ∧
    (0 : Nat) < sentCount
      ⟨[⟨"g1", some true, some "c1", none⟩, ⟨"g2", some true, some "c2", none⟩],
        [], [], [], [⟨"u1", some true⟩], 0⟩ "g1" (fun _ => .delivered) ∧
    (bump_command false true (fun _ => .delivered)
        ⟨[⟨"g1", some true, some "c1", none⟩, ⟨"g2", some true, some "c2", none⟩],
          [], [], [], [⟨"u1", some true⟩], 0⟩ 1000 "g1" "u1").2.bot_bump_reminders =
      [⟨0, "u1", "g1", 4600, true, 1000⟩] := by
  refine ⟨by decide, by decide, ?_⟩
  have h := ((C6_bump_reminder_optin
    ⟨[⟨"g1", some true, some "c1", none⟩, ⟨"g2", some true, some "c2", none⟩],
      [], [], [], [⟨"u1", some true⟩], 0⟩
    1000 "g1" "u1" (fun _ => .delivered)
    (by decide) (by decide) (by decide)).1) (by decide) (by decide)
  rw [h]
  rfl

/-- Counterexample for C8 as frozen: the refresh handler attempts a store
connection through the cached lookup, and with no database handle it
replies with the still-not-found onboarding guidance, not with the
transient-failure message, so the for-every-handler claim fails. -/
theorem C8_store_unavailable_counterexample :
    refresh_command false false ⟨[], [], [], [], [], 0⟩ [] 0 "g1" =
      (.stillNotFound, []) ∧
    (refresh_command false false ⟨[], [], [], [], [], 0⟩ [] 0 "g1").1 ≠
      Reply.dbUnavailable := by
  refine ⟨rfl, ?_⟩
  intro h
  cases h

/-- C8 (amended): every store-accessing command handler except refresh,
on reaching its connection check with no database handle, replies with the
transient-failure message and returns before any store write, so the
persisted collections are returned unchanged (the read-only handlers
return no store at all); the refresh handler also performs no store write
but, with the store unavailable, replies with the still-not-found
guidance instead of the transient-failure message. The handlers that
never attempt a connection (help, invite) touch no collection either. -/
theorem C8_store_unavailable_behavior (db : DB) (cache : ServerCache) (now : Int)
    (g u channelId : String) (enabled : Bool) (setDomain : Option String)
    (deliver : ServerDoc → DeliveryOutcome) :
    set_ad_channel true true false db cache now g channelId = ⟨.dbUnavailable, db, cache⟩ ∧
    enable_cross_ad true false db cache now g enabled = ⟨.dbUnavailable, db, cache⟩ ∧
    domain_command true false db cache now g setDomain = ⟨.dbUnavailable, db, cache⟩ ∧
    bump_command false false deliver db now g u = (.dbUnavailable, db) ∧
    toggle_bot_reminders false db u = (.dbUnavailable, db) ∧
    preview_command false db g = .dbUnavailable ∧
    info_command false db g = .dbUnavailable ∧
    setup_command true false db g = .dbUnavailable ∧
    serverinfo_command true false db g = .dbUnavailable ∧
    refresh_command false false db cache now g =
      (.stillNotFound, invalidate_server_cache cache g) := by
  refine ⟨rfl, rfl, ?_, rfl, rfl, rfl, rfl, rfl, rfl, ?_⟩
  · simp [domain_command]
  · have hmiss := cacheLookup_invalidate cache g
    simp [refresh_command, get_server_data_cached, hmiss]

end HentaiBot
